/-
  Verification of the Tango commit-reveal prediction game.

  Shallow embedding of:
  - `src/contracts/PredictionGameScroll.sol` (commit / reveal / settle / oracle
    score / withdraw state machine, payout curve),
  - `src/contracts/PredictionManager.sol` (reveal-side commitment digest),
  - the client-side hook `useScrollPrediction` (salt generation, commitment
    packing) and the score scaling helpers in the upload page and
    `src/scripts/commit.ts`.

  Machine integers are modelled as `Nat` (Solidity 0.8 reverts on overflow,
  and no claim here involves values anywhere near 2^256); reverting calls
  are `Except`-valued: an `error` result means the EVM reverts and the whole
  state is rolled back.  keccak-256 is an external primitive, so every
  commitment-related definition is parametric in the digest function; what
  is modelled concretely is the exact byte string each implementation feeds
  to it.
-/
import Mathlib

namespace PredictionGameScroll

/-- `struct Prediction` of `PredictionGameScroll.sol` (lines 25–33).
Addresses and `bytes32` values are `Nat`; `predictor = 0` is `address(0)`,
`commitment = 0` is `bytes32(0)`. -/
structure Prediction where
  predictor : Nat
  amountStaked : Nat
  unlockBlock : Nat
  commitment : Nat
  revealed : Bool
  settled : Bool
  revealedScore : Nat
deriving Repr, DecidableEq

/-- The default value of a `mapping(uint256 => Prediction)` slot. -/
def Prediction.empty : Prediction :=
  { predictor := 0, amountStaked := 0, unlockBlock := 0, commitment := 0
    revealed := false, settled := false, revealedScore := 0 }

/-- Contract storage plus the contract's ether balance. -/
structure State where
  predictions : Nat → Prediction
  aiScores : Nat → Nat
  entryCids : Nat → List Nat
  balance : Nat
  minStake : Nat
  owner : Nat

/-- One tag per distinct `require` message in the contract. -/
inductive Err where
  | stakeTooLow          -- "stake too low"
  | invalidUnlock        -- "unlock block must be future"
  | cidRequired          -- "video CID required"
  | missingCommitment    -- "commitment required"
  | alreadyCommitted     -- "prediction exists"
  | noPrediction         -- "no prediction"
  | notYourPrediction    -- "not your prediction"
  | tooEarly             -- "prediction locked"
  | alreadyRevealed      -- "already revealed"
  | invalidScore         -- "score > 10.00"
  | commitmentMismatch   -- "commitment mismatch"
  | notRevealed          -- "not revealed yet"
  | alreadySettled       -- "already settled"
  | stakeMissing         -- "stake missing"
  | aiScoreNotSet        -- "AI score not set"
  | insufficientBalance  -- "insufficient balance"
  | notOwner             -- Ownable: caller is not the owner
  | zeroAddress          -- "zero address"
deriving Repr, DecidableEq

/-- Storage write to one key of a `mapping`. -/
def mapUpdate {α : Type} (m : Nat → α) (k : Nat) (v : α) : Nat → α :=
  fun k' => if k' = k then v else m k'

@[simp] theorem mapUpdate_same {α : Type} (m : Nat → α) (k : Nat) (v : α) :
    mapUpdate m k v k = v := by simp [mapUpdate]

/-- `submitPrediction` (lines 92–120).  `value` is `msg.value`; a payable
call credits it to the contract balance on success (a revert returns it). -/
def submitPrediction (sender value entryId : Nat) (videoCid : List Nat)
    (commitment unlockBlock blockNumber : Nat) (st : State) :
    Except Err State :=
  if value < st.minStake then .error .stakeTooLow
  else if ¬ blockNumber < unlockBlock then .error .invalidUnlock
  else if videoCid.length = 0 then .error .cidRequired
  else if commitment = 0 then .error .missingCommitment
  else
    let prediction := st.predictions entryId
    if prediction.predictor ≠ 0 then .error .alreadyCommitted
    else
      let cids :=
        if (st.entryCids entryId).length = 0 then
          mapUpdate st.entryCids entryId videoCid
        else st.entryCids
      .ok { st with
        predictions := (mapUpdate st.predictions entryId
          { predictor := sender, amountStaked := value
            unlockBlock := unlockBlock, commitment := commitment
            revealed := false, settled := false, revealedScore := 0 })
        entryCids := cids
        balance := st.balance + value }

/-- `revealPrediction` (lines 128–148), parametric in the keccak digest of
the `(scoreScaled, salt)` commitment preimage. -/
def revealPrediction (keccak : Nat → Nat → Nat) (sender entryId scoreScaled salt
    blockNumber : Nat) (st : State) : Except Err State :=
  let prediction := st.predictions entryId
  if prediction.predictor = 0 then .error .noPrediction
  else if prediction.predictor ≠ sender then .error .notYourPrediction
  else if blockNumber < prediction.unlockBlock then .error .tooEarly
  else if prediction.revealed then .error .alreadyRevealed
  else if ¬ scoreScaled ≤ 1000 then .error .invalidScore
  else if keccak scoreScaled salt ≠ prediction.commitment then
    .error .commitmentMismatch
  else
    .ok { st with predictions := (mapUpdate st.predictions entryId
      { prediction with revealed := true, revealedScore := scoreScaled }) }

/-- `predicted > aiScoreScaled ? predicted - aiScoreScaled
    : aiScoreScaled - predicted` (line 168). -/
def absDiff (predicted aiScoreScaled : Nat) : Nat :=
  if predicted > aiScoreScaled then predicted - aiScoreScaled
  else aiScoreScaled - predicted

/-- The tiered payout computation of `settlePrediction` (lines 170–179). -/
def payoutAmount (stakedAmount diff : Nat) : Nat :=
  if diff = 0 then stakedAmount * 200 / 100
  else if diff ≤ 25 then stakedAmount * 50 / 100
  else if diff ≤ 50 then stakedAmount * 25 / 100
  else 0

/-- The storage state after lines 181–182 (`settled = true;
`amountStaked = 0`) have executed — this is the state every external callee
of the payout transfer observes. -/
def settleMutated (entryId : Nat) (st : State) : State :=
  let prediction := st.predictions entryId
  { st with predictions := (mapUpdate st.predictions entryId
      { prediction with settled := true, amountStaked := 0 }) }

/-- `settlePrediction` (lines 154–191).  The external payout `call` is the
balance debit on `settleMutated entryId st`, i.e. it happens on the state in
which `settled`/`amountStaked` are already written, mirroring the source
order.  The recipient is an EOA in the model, so the low-level call itself
succeeds whenever the balance check passes. -/
def settlePrediction (entryId blockNumber : Nat) (st : State) :
    Except Err State :=
  let prediction := st.predictions entryId
  if prediction.predictor = 0 then .error .noPrediction
  else if ¬ prediction.revealed then .error .notRevealed
  else if prediction.settled then .error .alreadySettled
  else if blockNumber < prediction.unlockBlock then .error .tooEarly
  else
    let stakedAmount := prediction.amountStaked
    if stakedAmount = 0 then .error .stakeMissing
    else
      let aiScoreScaled := st.aiScores entryId
      if aiScoreScaled = 0 then .error .aiScoreNotSet
      else
        let predicted := prediction.revealedScore
        let diff := absDiff predicted aiScoreScaled
        let payout := payoutAmount stakedAmount diff
        let st' := settleMutated entryId st
        if 0 < payout then
          if st'.balance < payout then .error .insufficientBalance
          else .ok { st' with balance := st'.balance - payout }
        else .ok st'

/-- `setAIScore` (lines 79–83), `onlyOwner`. -/
def setAIScore (sender entryId aiScoreScaled : Nat) (st : State) :
    Except Err State :=
  if sender ≠ st.owner then .error .notOwner
  else if ¬ aiScoreScaled ≤ 1000 then .error .invalidScore
  else .ok { st with aiScores := mapUpdate st.aiScores entryId aiScoreScaled }

/-- `withdraw` (lines 196–201), `onlyOwner`. -/
def withdraw (sender toAddr amount : Nat) (st : State) : Except Err State :=
  if sender ≠ st.owner then .error .notOwner
  else if toAddr = 0 then .error .zeroAddress
  else if st.balance < amount then .error .insufficientBalance
  else .ok { st with balance := st.balance - amount }

/-- `setMinStake` (lines 70–72), `onlyOwner`. -/
def setMinStake (sender newMinStake : Nat) (st : State) : Except Err State :=
  if sender ≠ st.owner then .error .notOwner
  else .ok { st with minStake := newMinStake }

/-- External transactions against the contract. -/
inductive Act where
  | submit (sender value entryId : Nat) (videoCid : List Nat)
      (commitment unlockBlock blockNumber : Nat)
  | reveal (sender entryId scoreScaled salt blockNumber : Nat)
  | settle (entryId blockNumber : Nat)
  | setScore (sender entryId aiScoreScaled : Nat)
  | withdrawTo (sender toAddr amount : Nat)
  | setMin (sender newMinStake : Nat)

/-- Dispatch one transaction. -/
def exec (keccak : Nat → Nat → Nat) (a : Act) (st : State) : Except Err State :=
  match a with
  | .submit sender value entryId videoCid commitment unlockBlock blockNumber =>
      submitPrediction sender value entryId videoCid commitment unlockBlock
        blockNumber st
  | .reveal sender entryId scoreScaled salt blockNumber =>
      revealPrediction keccak sender entryId scoreScaled salt blockNumber st
  | .settle entryId blockNumber => settlePrediction entryId blockNumber st
  | .setScore sender entryId aiScoreScaled =>
      setAIScore sender entryId aiScoreScaled st
  | .withdrawTo sender toAddr amount => withdraw sender toAddr amount st
  | .setMin sender newMinStake => setMinStake sender newMinStake st

/-- EVM revert semantics: a failed transaction leaves storage unchanged. -/
def step (keccak : Nat → Nat → Nat) (st : State) (a : Act) : State :=
  match exec keccak a st with
  | .ok st' => st'
  | .error _ => st

/-- Freshly deployed contract: empty mappings, `minStake = 1 wei`,
`Ownable(msg.sender)`. -/
def initState (owner : Nat) : State :=
  { predictions := fun _ => Prediction.empty
    aiScores := fun _ => 0
    entryCids := fun _ => []
    balance := 0
    minStake := 1
    owner := owner }

/-- State reached from deployment by a list of transactions. -/
def run (keccak : Nat → Nat → Nat) (owner : Nat) (acts : List Act) : State :=
  acts.foldl (step keccak) (initState owner)

/-! ## Commitment preimage encodings

The contracts and the client agree on keccak-256 as the digest function but
feed it different byte strings; those byte strings are modelled exactly.
A byte list is big-endian. -/

/-- `i`-th byte of `x`, counting from the least significant. -/
def byteAt (x i : Nat) : Nat := x / 256 ^ i % 256

/-- Big-endian fixed-width byte string of `x` (`width` bytes). -/
def beBytes (width x : Nat) : List Nat :=
  (List.range width).map (fun k => byteAt x (width - 1 - k))

/-- `abi.encodePacked(uint16 scoreScaled, bytes32 salt)`: tight concatenation
of the 2-byte big-endian score and the 32-byte salt
(`PredictionGameScroll.sol` lines 141 and 210). -/
def encodePackedScoreSalt (scoreScaled salt : Nat) : List Nat :=
  beBytes 2 scoreScaled ++ beBytes 32 salt

/-- `abi.encode(uint16 scoreScaled, bytes32 salt)`: each argument head-encoded
as a full 32-byte word (`PredictionManager.sol` line 47). -/
def abiEncodeScoreSalt (scoreScaled salt : Nat) : List Nat :=
  beBytes 32 scoreScaled ++ beBytes 32 salt

/-- `PredictionGameScroll.computeCommitment` (lines 209–211):
`keccak256(abi.encodePacked(scoreScaled, salt))`. -/
def computeCommitment (keccak : List Nat → Nat) (scoreScaled salt : Nat) :
    Nat :=
  keccak (encodePackedScoreSalt scoreScaled salt)

/-- The digest recomputed by `revealPrediction` line 141:
`keccak256(abi.encodePacked(scoreScaled, salt))`. -/
def revealDigest (keccak : List Nat → Nat) (scoreScaled salt : Nat) : Nat :=
  keccak (encodePackedScoreSalt scoreScaled salt)

/-- The client-side `computeCommitment` of `useScrollPrediction`
(`src/unnamed/part_003` lines 176–183): viem
`keccak256(encodePacked(['uint16','bytes32'], [scoreScaled, salt]))`, i.e.
the 2-byte big-endian score followed by the 32 salt bytes. -/
def clientComputeCommitment (keccak : List Nat → Nat) (scoreScaled salt : Nat) :
    Nat :=
  keccak (beBytes 2 scoreScaled ++ beBytes 32 salt)

/-- The digest recomputed by `PredictionManager.reveal` (line 47):
`keccak256(abi.encode(predictedScoreScaled, salt))`. -/
def managerRevealDigest (keccak : List Nat → Nat) (scoreScaled salt : Nat) :
    Nat :=
  keccak (abiEncodeScoreSalt scoreScaled salt)

/-! ## Salt generation

Salts are produced client side as JavaScript strings, modelled as `List Char`.
-/

/-- Lowercase hex digit of `d % 16`. -/
def hexDigitChar (d : Nat) : Char :=
  match d % 16 with
  | 0 => '0' | 1 => '1' | 2 => '2' | 3 => '3'
  | 4 => '4' | 5 => '5' | 6 => '6' | 7 => '7'
  | 8 => '8' | 9 => '9' | 10 => 'a' | 11 => 'b'
  | 12 => 'c' | 13 => 'd' | 14 => 'e' | _ => 'f'

/-- `b.toString(16).padStart(2, '0')` for a byte `b`. -/
def byteHexChars (b : Nat) : List Char :=
  [hexDigitChar (b / 16), hexDigitChar (b % 16)]

/-- `generateSalt` of `useScrollPrediction` (`src/unnamed/part_003`
lines 170–174): fills a `Uint8Array(32)` from the CSPRNG (`draw i % 256` is
the `i`-th random byte) and renders `"0x"` plus two lowercase hex digits per
byte. -/
def generateSalt (draw : Nat → Nat) : List Char :=
  '0' :: 'x' ::
    ((List.range 32).flatMap (fun i => byteHexChars (draw i % 256)))

/-- The salt fallback in `handleCommitLocal` (`src/unnamed/part_013`
line 312): `crypto.getRandomValues(new Uint32Array(1))[0].toString(16)` —
one 32-bit random word (`u % 2^32`) rendered as unpadded lowercase hex with
no `"0x"` prefix. -/
def handleCommitLocalSalt (u : Nat) : List Char :=
  Nat.toDigits 16 (u % 2 ^ 32)

/-- A hexadecimal digit character. -/
def isHexChar (c : Char) : Bool :=
  ('0' ≤ c && c ≤ '9') || ('a' ≤ c && c ≤ 'f')

/-- Whether a string is the canonical encoding of a 256-bit value:
`"0x"` followed by exactly 64 hex digits (what `bytes32` parsing expects
and what the spec's fixed-width 256-bit salt requires). -/
def isBytes32Hex : List Char → Bool
  | '0' :: 'x' :: rest => rest.length = 64 && rest.all isHexChar
  | _ => false

/-! ## Score codec -/

/-- `toScaledScore` of the upload page (`src/unnamed/part_013` lines 13–16):
`Math.round(Math.max(0, Math.min(10, v)) * 100)`.  JavaScript `Math.round`
is round-half-up, which is Mathlib's `round`. -/
def toScaledScore (v : ℚ) : ℤ :=
  round (max 0 (min 10 v) * 100)

/-- `toScaled` of `src/scripts/commit.ts` (lines 104–106):
`Math.round(Math.max(0, Math.min(10, score)) * 100)`. -/
def toScaled (score : ℚ) : ℤ :=
  round (max 0 (min 10 score) * 100)

/-! ## Helper lemmas about the operations -/

/-- Success conditions and effect of `submitPrediction`. -/
theorem submit_ok {sender value entryId : Nat} {videoCid : List Nat}
    {commitment unlockBlock blockNumber : Nat} {st st' : State}
    (h : submitPrediction sender value entryId videoCid commitment unlockBlock
      blockNumber st = .ok st') :
    st.minStake ≤ value ∧ blockNumber < unlockBlock ∧ videoCid.length ≠ 0 ∧
    commitment ≠ 0 ∧ (st.predictions entryId).predictor = 0 ∧
    st'.predictions = mapUpdate st.predictions entryId
      { predictor := sender, amountStaked := value, unlockBlock := unlockBlock
        commitment := commitment, revealed := false, settled := false
        revealedScore := 0 } := by
  simp only [submitPrediction] at h
  split_ifs at h with h1 h2 h3 h4 h5 h6
  all_goals
    simp only [Except.ok.injEq] at h
    subst h
    exact ⟨by omega, by omega, h3, h4, by omega, rfl⟩

/-- Success conditions and effect of `revealPrediction`. -/
theorem reveal_ok {keccak : Nat → Nat → Nat}
    {sender entryId scoreScaled salt blockNumber : Nat} {st st' : State}
    (h : revealPrediction keccak sender entryId scoreScaled salt blockNumber st
      = .ok st') :
    (st.predictions entryId).predictor ≠ 0 ∧
    (st.predictions entryId).predictor = sender ∧
    (st.predictions entryId).unlockBlock ≤ blockNumber ∧
    (st.predictions entryId).revealed = false ∧
    scoreScaled ≤ 1000 ∧
    keccak scoreScaled salt = (st.predictions entryId).commitment ∧
    st'.predictions = mapUpdate st.predictions entryId
      { st.predictions entryId with
        revealed := true, revealedScore := scoreScaled } := by
  simp only [revealPrediction] at h
  split_ifs at h with h1 h2 h3 h4 h5 h6
  all_goals
    simp only [Except.ok.injEq] at h
    subst h
    exact ⟨h1, by omega, by omega, by simpa using h4, by omega, by omega, rfl⟩

/-- Success conditions and effect of `settlePrediction`. -/
theorem settle_ok {entryId blockNumber : Nat} {st st' : State}
    (h : settlePrediction entryId blockNumber st = .ok st') :
    (st.predictions entryId).predictor ≠ 0 ∧
    (st.predictions entryId).revealed = true ∧
    (st.predictions entryId).settled = false ∧
    (st.predictions entryId).unlockBlock ≤ blockNumber ∧
    0 < (st.predictions entryId).amountStaked ∧
    0 < st.aiScores entryId ∧
    st'.predictions = (settleMutated entryId st).predictions := by
  simp only [settlePrediction] at h
  split_ifs at h with h1 h2 h3 h4 h5 h6 h7 h8
  all_goals
    simp only [Except.ok.injEq] at h
    subst h
    exact ⟨h1, by simpa using h2, by simpa using h3, by omega,
      by omega, by omega, rfl⟩

/-- A revealed record can never be revealed again. -/
theorem reveal_on_revealed {keccak : Nat → Nat → Nat}
    {sender entryId scoreScaled salt blockNumber : Nat} {st st' : State}
    (hr : (st.predictions entryId).revealed = true) :
    revealPrediction keccak sender entryId scoreScaled salt blockNumber st
      ≠ .ok st' := by
  intro h
  have h2 := (reveal_ok h).2.2.2.1
  simp [hr] at h2

/-- A settled record is rejected by `settlePrediction` with
`AlreadySettled` whenever the first two guards pass. -/
theorem settle_on_settled {entryId blockNumber : Nat} {st : State}
    (h1 : (st.predictions entryId).predictor ≠ 0)
    (h2 : (st.predictions entryId).revealed = true)
    (h3 : (st.predictions entryId).settled = true) :
    settlePrediction entryId blockNumber st = .error .alreadySettled := by
  simp only [settlePrediction]
  split_ifs <;> simp_all

/-- A settled record can never be settled again. -/
theorem settle_on_settled_ne_ok {entryId blockNumber : Nat} {st st' : State}
    (h3 : (st.predictions entryId).settled = true) :
    settlePrediction entryId blockNumber st ≠ .ok st' := by
  intro h
  have h2 := (settle_ok h).2.2.1
  simp [h3] at h2

/-! ## C1 — payout tier boundaries -/

/-- C1: For every settlement of a prediction with stake `s`, revealed score
`p` and oracle score `a` (both in [0,1000]), with `diff = |p - a|`: if
`diff = 0` the payout is 200% of `s`; if `1 ≤ diff ≤ 25` the payout is 50%
of `s`; if `26 ≤ diff ≤ 50` the payout is 25% of `s`; if `diff ≥ 51` the
payout is 0 — tiers are evaluated in ascending order of boundary with
inclusive `≤`, so a tie at an exact boundary (25, 50) takes the higher
payout. -/
theorem payout_tier_boundaries (s p a : Nat) (h1 : p ≤ 1000) (h2 : a ≤ 1000) :
    (absDiff p a = 0 → payoutAmount s (absDiff p a) = 2 * s) ∧
    (1 ≤ absDiff p a → absDiff p a ≤ 25 →
      payoutAmount s (absDiff p a) = s / 2) ∧
    (26 ≤ absDiff p a → absDiff p a ≤ 50 →
      payoutAmount s (absDiff p a) = s / 4) ∧
    (51 ≤ absDiff p a → payoutAmount s (absDiff p a) = 0) := by
  unfold payoutAmount absDiff
  split_ifs <;> omega

/-- Witness for C1 at the spec's own concrete scenario (stake 1000,
oracle 725): exact match pays 2000, `diff = 25` pays 500 (tie takes the
50% tier, not 25%), `diff = 26` pays 250, `diff = 50` pays 250 (tie takes
the 25% tier, not 0), `diff = 55` pays 0. -/
theorem payout_tier_boundaries_witness :
    payoutAmount 1000 (absDiff 725 725) = 2 * 1000 ∧
    payoutAmount 1000 (absDiff 700 725) = 1000 / 2 ∧
    payoutAmount 1000 (absDiff 699 725) = 1000 / 4 ∧
    payoutAmount 1000 (absDiff 675 725) = 1000 / 4 ∧
    payoutAmount 1000 (absDiff 670 725) = 0 :=
  ⟨(payout_tier_boundaries 1000 725 725 (by decide) (by decide)).1 (by decide),
   (payout_tier_boundaries 1000 700 725 (by decide) (by decide)).2.1
     (by decide) (by decide),
   (payout_tier_boundaries 1000 699 725 (by decide) (by decide)).2.2.1
     (by decide) (by decide),
   (payout_tier_boundaries 1000 675 725 (by decide) (by decide)).2.2.1
     (by decide) (by decide),
   (payout_tier_boundaries 1000 670 725 (by decide) (by decide)).2.2.2
     (by decide)⟩

/-! ## C2 — the per-record state machine -/

/-- `settled → revealed`, for every record of the store. -/
def SettledImpliesRevealed (st : State) : Prop :=
  ∀ e, (st.predictions e).settled = true → (st.predictions e).revealed = true

theorem settledImpliesRevealed_init (owner : Nat) :
    SettledImpliesRevealed (initState owner) := by
  intro e h
  simp [initState, Prediction.empty] at h

theorem exec_preserves_inv {keccak : Nat → Nat → Nat} {a : Act}
    {st st' : State} (h : exec keccak a st = .ok st')
    (hinv : SettledImpliesRevealed st) : SettledImpliesRevealed st' := by
  cases a with
  | submit sender value entryId videoCid commitment unlockBlock blockNumber =>
      intro e he
      have hp := (submit_ok h).2.2.2.2.2
      rw [hp, mapUpdate] at he ⊢
      split at he <;> simp_all
      exact hinv e he
  | reveal sender entryId scoreScaled salt blockNumber =>
      intro e he
      have hp := (reveal_ok h).2.2.2.2.2.2
      rw [hp, mapUpdate] at he ⊢
      split at he <;> simp_all
      exact hinv e he
  | settle entryId blockNumber =>
      intro e he
      have hr := (settle_ok h).2.1
      have hp := (settle_ok h).2.2.2.2.2.2
      rw [hp, settleMutated] at he ⊢
      simp only [mapUpdate] at he ⊢
      split at he <;> simp_all
      exact hinv e he
  | setScore sender entryId aiScoreScaled =>
      simp only [exec, setAIScore] at h
      split_ifs at h
      simp only [Except.ok.injEq] at h
      subst h
      exact hinv
  | withdrawTo sender toAddr amount =>
      simp only [exec, withdraw] at h
      split_ifs at h
      simp only [Except.ok.injEq] at h
      subst h
      exact hinv
  | setMin sender newMinStake =>
      simp only [exec, setMinStake] at h
      split_ifs at h
      simp only [Except.ok.injEq] at h
      subst h
      exact hinv

theorem step_preserves_inv (keccak : Nat → Nat → Nat) (st : State) (a : Act)
    (hinv : SettledImpliesRevealed st) :
    SettledImpliesRevealed (step keccak st a) := by
  unfold step
  cases hE : exec keccak a st with
  | ok st' => exact exec_preserves_inv hE hinv
  | error err => exact hinv

theorem run_inv (keccak : Nat → Nat → Nat) (owner : Nat) (acts : List Act) :
    SettledImpliesRevealed (run keccak owner acts) := by
  have main : ∀ (l : List Act) (st : State), SettledImpliesRevealed st →
      SettledImpliesRevealed (l.foldl (step keccak) st) := by
    intro l
    induction l with
    | nil => intro st h; exact h
    | cons a l ih =>
        intro st h
        exact ih _ (step_preserves_inv keccak st a h)
  exact main acts _ (settledImpliesRevealed_init owner)

/-- C2: the per-entry record follows
`NONE → COMMITTED → REVEALED → SETTLED` with no skipped and no reversed
transition: a successful reveal requires an existing, not-yet-revealed
record and flips `revealed` from `false` to `true`, after which no reveal
can ever succeed again; a successful settle requires a revealed,
not-yet-settled record and flips `settled` from `false` to `true`, after
which no settle can ever succeed again; every reachable state satisfies
`settled → revealed` for every record; and a reveal or settle (or any
other) call that fails reverts, leaving the state unchanged. -/
theorem record_state_machine (keccak : Nat → Nat → Nat)
    (owner sender entryId scoreScaled salt blockNumber : Nat)
    (st st' : State) :
    (revealPrediction keccak sender entryId scoreScaled salt blockNumber st
        = .ok st' →
      (st.predictions entryId).predictor ≠ 0 ∧
      (st.predictions entryId).revealed = false ∧
      (st'.predictions entryId).revealed = true ∧
      (st'.predictions entryId).settled = (st.predictions entryId).settled ∧
      ∀ sender2 sc2 sa2 bn2 st'',
        revealPrediction keccak sender2 entryId sc2 sa2 bn2 st' ≠ .ok st'') ∧
    (settlePrediction entryId blockNumber st = .ok st' →
      (st.predictions entryId).revealed = true ∧
      (st.predictions entryId).settled = false ∧
      (st'.predictions entryId).settled = true ∧
      (st'.predictions entryId).revealed = true ∧
      ∀ bn2 st'', settlePrediction entryId bn2 st' ≠ .ok st'') ∧
    (∀ acts e, ((run keccak owner acts).predictions e).settled = true →
      ((run keccak owner acts).predictions e).revealed = true) ∧
    (∀ a err, exec keccak a st = .error err → step keccak st a = st) := by
  refine ⟨?_, ?_, ?_, ?_⟩
  · intro h
    obtain ⟨hne, _, _, hrev, _, _, hp⟩ := reveal_ok h
    have hrec : st'.predictions entryId
        = { st.predictions entryId with
            revealed := true, revealedScore := scoreScaled } := by
      rw [hp]; exact mapUpdate_same ..
    refine ⟨hne, hrev, by rw [hrec], by rw [hrec], ?_⟩
    intro sender2 sc2 sa2 bn2 st''
    exact reveal_on_revealed (by rw [hrec])
  · intro h
    obtain ⟨hne, hrev, hset, _, _, _, hp⟩ := settle_ok h
    have hrec : st'.predictions entryId
        = { st.predictions entryId with settled := true, amountStaked := 0 } := by
      rw [hp, settleMutated]; exact mapUpdate_same ..
    refine ⟨hrev, hset, by rw [hrec], by rw [hrec]; exact hrev, ?_⟩
    intro bn2 st''
    exact settle_on_settled_ne_ok (by rw [hrec])
  · intro acts e
    exact run_inv keccak owner acts e
  · intro a err hE
    simp [step, hE]

/-! Concrete fixtures used in the witnesses: a digest-model function and a
short transaction history against a fresh contract. -/

/-- A concrete stand-in for keccak-256 over `(scoreScaled, salt)`, used only
to drive concrete executions. -/
def kex : Nat → Nat → Nat := fun scoreScaled salt => scoreScaled + salt + 1

/-- Entry 1 committed: predictor 5 stakes 100 wei at block 10 with unlock
block 11 and commitment `kex 725 7 = 733`. -/
def exCommitted : State := run kex 9 [.submit 5 100 1 [99] 733 11 10]

/-- The same state after the predictor revealed score 725 with salt 7. -/
def exRevealed : State :=
  { exCommitted with predictions := (mapUpdate exCommitted.predictions 1
      { exCommitted.predictions 1 with revealed := true, revealedScore := 725 }) }

/-- Committed, revealed, and AI score 700 set by the owner (diff 25). -/
def exReady : State :=
  run kex 9 [.submit 5 100 1 [99] 733 11 10, .reveal 5 1 725 7 11,
    .setScore 9 1 700]

/-- Witness for C2: concretely, revealing entry 1 of `exCommitted` succeeds
and flips `revealed`, and settling entry 1 of `exReady` (payout 50 ≤
balance 100) succeeds and flips `settled`. -/
theorem record_state_machine_witness :
    ((exRevealed.predictions 1).revealed = true ∧
      (exRevealed.predictions 1).settled = false) ∧
    ((exCommitted.predictions 1).revealed = false ∧
      (exCommitted.predictions 1).predictor ≠ 0) := by
  have hrev : revealPrediction kex 5 1 725 7 11 exCommitted = .ok exRevealed :=
    rfl
  obtain ⟨h1, h2, h3, h4, _⟩ :=
    (record_state_machine kex 9 5 1 725 7 11 exCommitted exRevealed).1 hrev
  exact ⟨⟨h3, by rw [h4]; decide⟩, ⟨h2, h1⟩⟩

/-! ## C3 — state mutations precede the external payout transfer -/

/-- C3: in every execution of `settlePrediction` that reaches the external
payout transfer (all guards pass and the computed payout is positive), the
state on which the transfer is performed is `settleMutated entryId st`, in
which `settled = true` and `amountStaked = 0` are already written; the
call's result is exactly the transfer acting on that mutated state, and a
reentrant second settlement during the transfer observes the mutated record
and fails with `AlreadySettled`. -/
theorem settle_mutates_before_transfer (entryId blockNumber : Nat)
    (st : State)
    (h1 : (st.predictions entryId).predictor ≠ 0)
    (h2 : (st.predictions entryId).revealed = true)
    (h3 : (st.predictions entryId).settled = false)
    (h4 : (st.predictions entryId).unlockBlock ≤ blockNumber)
    (h5 : 0 < (st.predictions entryId).amountStaked)
    (h6 : 0 < st.aiScores entryId)
    (h7 : 0 < payoutAmount (st.predictions entryId).amountStaked
      (absDiff (st.predictions entryId).revealedScore (st.aiScores entryId))) :
    ((settleMutated entryId st).predictions entryId).settled = true ∧
    ((settleMutated entryId st).predictions entryId).amountStaked = 0 ∧
    settlePrediction entryId blockNumber st =
      (if (settleMutated entryId st).balance <
          payoutAmount (st.predictions entryId).amountStaked
            (absDiff (st.predictions entryId).revealedScore
              (st.aiScores entryId)) then
        .error .insufficientBalance
      else
        .ok { settleMutated entryId st with
          balance := (settleMutated entryId st).balance -
            payoutAmount (st.predictions entryId).amountStaked
              (absDiff (st.predictions entryId).revealedScore
                (st.aiScores entryId)) }) ∧
    (∀ bn2, settlePrediction entryId bn2 (settleMutated entryId st)
      = .error .alreadySettled) := by
  have hms : ((settleMutated entryId st).predictions entryId).settled
      = true := by
    simp [settleMutated]
  have hma : ((settleMutated entryId st).predictions entryId).amountStaked
      = 0 := by
    simp [settleMutated]
  refine ⟨hms, hma, ?_, ?_⟩
  · simp only [settlePrediction]
    split_ifs with g1 g2 g3 g4 g5 g6 g7 g8 <;>
      first | rfl | (exfalso; omega) | simp_all
  · intro bn2
    refine settle_on_settled ?_ (by simp [settleMutated, h2]) hms
    simp [settleMutated, h1]

/-- Witness for C3 on `exReady` (stake 100, revealed 725, oracle 700,
payout 50): at the moment of the transfer the record is already settled
with zero stake, and a reentrant settle fails with `AlreadySettled`. -/
theorem settle_mutates_before_transfer_witness :
    ((settleMutated 1 exReady).predictions 1).settled = true ∧
    ((settleMutated 1 exReady).predictions 1).amountStaked = 0 ∧
    settlePrediction 1 99 (settleMutated 1 exReady)
      = .error .alreadySettled := by
  obtain ⟨hset, hstake, _, hreent⟩ :=
    settle_mutates_before_transfer 1 11 exReady (by decide) (by decide)
      (by decide) (by decide) (by decide) (by decide) (by decide)
  exact ⟨hset, hstake, hreent 99⟩

/-! ## C4 — zero oracle score vs "not set" -/

/-- `exRevealed` with the owner's oracle score 0 written for entry 1. -/
def exC4Set : State :=
  { exRevealed with aiScores := (mapUpdate exRevealed.aiScores 1 0) }

/-- C4 counterexample: `aiScores` is a bare `uint16` mapping with no
presence flag.  On the reachable state `exRevealed` (entry 1 committed and
revealed, stake 100, unlock block 11 reached), the owner's
`setAIScore(1, 0)` succeeds — yet `settlePrediction(1)` is rejected with
`"AI score not set"`.  This refutes the claim that after the privileged
writer sets a score of 0, settlement of that entity is permitted, and with
it the claimed `isSet`-awareness of the registry read. -/
theorem oracle_zero_score_counterexample :
    setAIScore 9 1 0 exRevealed = .ok exC4Set ∧
    (exRevealed.predictions 1).revealed = true ∧
    (exRevealed.predictions 1).settled = false ∧
    0 < (exRevealed.predictions 1).amountStaked ∧
    (exRevealed.predictions 1).unlockBlock ≤ 11 ∧
    settlePrediction 1 11 exC4Set = .error .aiScoreNotSet :=
  ⟨rfl, by decide, by decide, by decide, by decide, rfl⟩

/-- C4 (amended): the oracle score registry does NOT distinguish "not yet
set" from a legitimate score of zero: scores live in a bare mapping whose
read yields 0 both for "unset" and for a stored 0, the owner may write any
score `v ≤ 1000` including 0, and (on a record that passes the earlier
guards) settlement fails with `ScoreNotSet` exactly when the stored score
is zero — so after the owner writes a score of 0, settlement of that entity
is rejected rather than permitted. -/
theorem oracle_zero_sentinel (entryId blockNumber v : Nat) (st : State)
    (hv : v ≤ 1000)
    (h1 : (st.predictions entryId).predictor ≠ 0)
    (h2 : (st.predictions entryId).revealed = true)
    (h3 : (st.predictions entryId).settled = false)
    (h4 : (st.predictions entryId).unlockBlock ≤ blockNumber)
    (h5 : 0 < (st.predictions entryId).amountStaked) :
    setAIScore st.owner entryId v st
      = .ok { st with aiScores := (mapUpdate st.aiScores entryId v) } ∧
    (settlePrediction entryId blockNumber st = .error .aiScoreNotSet
      ↔ st.aiScores entryId = 0) := by
  refine ⟨by simp [setAIScore, hv], ?_, ?_⟩
  · intro h
    by_contra hne
    simp only [settlePrediction] at h
    split_ifs at h <;> first | omega | (exfalso; omega) | simp_all
  · intro h0
    simp only [settlePrediction]
    split_ifs <;> first | rfl | (exfalso; omega) | simp_all

/-- Witness for C4 (amended) at the concrete state `exC4Set`. -/
theorem oracle_zero_sentinel_witness :
    settlePrediction 1 11 exC4Set = .error .aiScoreNotSet ∧
    setAIScore 9 1 700 exC4Set
      = .ok { exC4Set with aiScores := (mapUpdate exC4Set.aiScores 1 700) } := by
  obtain ⟨hset, hiff⟩ :=
    oracle_zero_sentinel 1 11 700 exC4Set (by decide) (by decide) (by decide)
      (by decide) (by decide) (by decide)
  exact ⟨hiff.mpr (by decide), hset⟩

/-! ## C5 — the three commitment digests -/

/-- C5 counterexample: at score 725 and salt 1, the byte string hashed by
`PredictionManager.reveal` (`abi.encode`: two 32-byte words, 64 bytes) is
not the tight 2+32-byte concatenation hashed by the Scroll contract and
client (34 bytes), so the manager's reveal digest disagrees with
`computeCommitment` already for the digest model that returns the preimage
length — the implementations are not equal as functions of
`(score, salt)`. -/
theorem commitment_encoding_counterexample :
    abiEncodeScoreSalt 725 1 ≠ encodePackedScoreSalt 725 1 ∧
    (abiEncodeScoreSalt 725 1).length = 64 ∧
    (encodePackedScoreSalt 725 1).length = 34 ∧
    managerRevealDigest List.length 725 1
      ≠ computeCommitment List.length 725 1 := by
  refine ⟨by decide, by decide, by decide, by decide⟩

/-- C5 (amended): the Scroll contract's `computeCommitment`, the digest it
recomputes during reveal verification, and the client-side
`computeCommitment` all hash the same tight concatenation of the 2-byte
big-endian score and the 32-byte salt, and hence agree as functions of
`(score, salt)` for any digest function; `PredictionManager.reveal`,
however, hashes the 64-byte `abi.encode` padding of the pair, whose
preimage differs from the tight concatenation for every `(score, salt)`. -/
theorem commitment_digest_characterization (keccak : List Nat → Nat)
    (scoreScaled salt : Nat) :
    clientComputeCommitment keccak scoreScaled salt
      = computeCommitment keccak scoreScaled salt ∧
    revealDigest keccak scoreScaled salt
      = computeCommitment keccak scoreScaled salt ∧
    abiEncodeScoreSalt scoreScaled salt
      ≠ encodePackedScoreSalt scoreScaled salt := by
  refine ⟨rfl, rfl, ?_⟩
  intro h
  have hl := congrArg List.length h
  simp [abiEncodeScoreSalt, encodePackedScoreSalt, beBytes] at hl

/-! ## C6 — time-lock boundaries -/

/-- C6: `submitPrediction` succeeds only when the supplied unlock block is
strictly greater than the current block, and (once the stake guard passes)
fails with `InvalidUnlock` exactly when it is not; `revealPrediction` on
the caller's own record fails with `TooEarly` exactly when the current
block is below the unlock block — the time-lock guard passes exactly when
`blockNumber ≥ unlockBlock`, so a reveal at exactly the unlock block is
not rejected as too early. -/
theorem timelock_boundaries (keccak : Nat → Nat → Nat)
    (sender value entryId : Nat) (videoCid : List Nat)
    (commitment unlockBlock blockNumber scoreScaled salt : Nat)
    (st st' : State) :
    (submitPrediction sender value entryId videoCid commitment unlockBlock
        blockNumber st = .ok st' → blockNumber < unlockBlock) ∧
    (st.minStake ≤ value →
      (submitPrediction sender value entryId videoCid commitment unlockBlock
          blockNumber st = .error .invalidUnlock
        ↔ unlockBlock ≤ blockNumber)) ∧
    (revealPrediction keccak sender entryId scoreScaled salt blockNumber st
        = .ok st' → (st.predictions entryId).unlockBlock ≤ blockNumber) ∧
    ((st.predictions entryId).predictor = sender → sender ≠ 0 →
      (revealPrediction keccak sender entryId scoreScaled salt blockNumber st
          = .error .tooEarly
        ↔ blockNumber < (st.predictions entryId).unlockBlock)) := by
  refine ⟨?_, ?_, ?_, ?_⟩
  · intro h
    exact (submit_ok h).2.1
  · intro hmin
    simp only [submitPrediction]
    split_ifs with g1 g2 g3 g4 g5 g6 <;>
      first
        | (exfalso; omega)
        | (constructor <;> intro h <;>
            first | rfl | omega | (exfalso; omega) | simp_all)
  · intro h
    exact (reveal_ok h).2.2.1
  · intro hps hsne
    simp only [revealPrediction]
    split_ifs with g1 g2 g3 g4 g5 g6 <;>
      first
        | (exfalso; omega)
        | (constructor <;> intro h <;>
            first | rfl | omega | (exfalso; omega) | simp_all)

/-! ## C7 — double submit is rejected -/

/-- C7: once an entry key holds a record (`predictor ≠ 0`), no second
submit for that key can ever succeed; when the second submit's own
argument guards pass it fails precisely with `AlreadyCommitted`; and the
failed transaction leaves the state — in particular every field of the
first record — unchanged. -/
theorem double_submit_rejected (keccak : Nat → Nat → Nat)
    (sender value entryId : Nat) (videoCid : List Nat)
    (commitment unlockBlock blockNumber : Nat) (st : State)
    (hex : (st.predictions entryId).predictor ≠ 0) :
    (∀ st', submitPrediction sender value entryId videoCid commitment
      unlockBlock blockNumber st ≠ .ok st') ∧
    (st.minStake ≤ value → blockNumber < unlockBlock → videoCid.length ≠ 0 →
      commitment ≠ 0 →
      submitPrediction sender value entryId videoCid commitment unlockBlock
        blockNumber st = .error .alreadyCommitted) ∧
    step keccak st (.submit sender value entryId videoCid commitment
      unlockBlock blockNumber) = st := by
  refine ⟨?_, ?_, ?_⟩
  · intro st' h
    exact hex ((submit_ok h).2.2.2.2.1)
  · intro h1 h2 h3 h4
    simp only [submitPrediction]
    split_ifs <;> first | rfl | (exfalso; omega) | simp_all
  · cases hE : submitPrediction sender value entryId videoCid commitment
        unlockBlock blockNumber st with
    | ok st' => exact absurd ((submit_ok hE).2.2.2.2.1) hex
    | error e => simp [step, exec, hE]

/-- Witness for C7: with entry 1 of `exCommitted` already held by
predictor 5, a second submit by sender 6 fails with `AlreadyCommitted` and
the transaction leaves the state unchanged. -/
theorem double_submit_rejected_witness :
    submitPrediction 6 100 1 [88] 5 20 12 exCommitted
      = .error .alreadyCommitted ∧
    step kex exCommitted (.submit 6 100 1 [88] 5 20 12) = exCommitted := by
  obtain ⟨_, h2, h3⟩ :=
    double_submit_rejected kex 6 100 1 [88] 5 20 12 exCommitted (by decide)
  exact ⟨h2 (by decide) (by decide) (by decide) (by decide), h3⟩

/-! ## C8 — salt bit width -/

theorem isHexChar_hexDigitChar (d : Nat) :
    isHexChar (hexDigitChar d) = true := by
  unfold hexDigitChar
  split <;> decide

theorem flatMap_byteHex_length (f : Nat → Nat) (l : List Nat) :
    (l.flatMap fun i => byteHexChars (f i)).length = 2 * l.length := by
  induction l with
  | nil => rfl
  | cons a t ih =>
      rw [List.flatMap_cons, List.length_append, ih, List.length_cons,
        byteHexChars]
      simp
      omega

theorem flatMap_byteHex_all (f : Nat → Nat) (l : List Nat) :
    (l.flatMap fun i => byteHexChars (f i)).all isHexChar = true := by
  induction l with
  | nil => rfl
  | cons a t ih =>
      simp [List.flatMap_cons, byteHexChars, isHexChar_hexDigitChar, ih]

/-- C8: the hook's `generateSalt` does produce a full 256-bit salt — for
every CSPRNG draw its output is `"0x"` plus 64 hex digits, i.e. a 32-byte
value — but the upload page's `handleCommitLocal` fallback salt is not
256 bits wide: it is not even a `bytes32`-shaped string (counterexample at
draw 0, where the salt is just `"0"`), and it is a function of only the
lowest 32 bits of the random draw, so its salt space has at most `2^32`
values instead of `2^256`. -/
theorem salt_width (draw : Nat → Nat) (u v : Nat) :
    isBytes32Hex (generateSalt draw) = true ∧
    isBytes32Hex (handleCommitLocalSalt 0) = false ∧
    (u % 2 ^ 32 = v % 2 ^ 32 →
      handleCommitLocalSalt u = handleCommitLocalSalt v) := by
  refine ⟨?_, by decide, ?_⟩
  · simp only [generateSalt, isBytes32Hex,
      flatMap_byteHex_length (fun i => draw i % 256) (List.range 32),
      flatMap_byteHex_all (fun i => draw i % 256) (List.range 32)]
    simp
  · intro h
    unfold handleCommitLocalSalt
    rw [h]

/-! ## C9 — score codec clamps instead of rejecting -/

/-- C9 counterexample: the encoders silently clamp out-of-range input: the
decimal −1 is mapped to 0 and the decimal 11 to 1000, rather than failing
with `OutOfRange` as claimed. -/
theorem codec_clamps_counterexample :
    toScaledScore (-1) = 0 ∧ toScaledScore 11 = 1000 ∧ toScaled (-1) = 0 := by
  refine ⟨?_, ?_, ?_⟩ <;> norm_num [toScaledScore, toScaled]

/-- C9 (amended): the score encoders (`toScaledScore` in the upload page
and `toScaled` in the commit script, which are the same function) never
fail: out-of-range input is clamped into [0, 10] before scaling — negative
input encodes to 0 and input above 10 to 1000 — while in-range input is
rounded to `round(d * 100)` exactly as claimed. -/
theorem score_codec_clamps (v : ℚ) :
    (v < 0 → toScaledScore v = 0) ∧
    (10 < v → toScaledScore v = 1000) ∧
    (0 ≤ v → v ≤ 10 → toScaledScore v = round (v * 100)) ∧
    toScaled v = toScaledScore v := by
  refine ⟨?_, ?_, ?_, rfl⟩
  · intro h
    rw [toScaledScore, min_eq_right (by linarith), max_eq_left (by linarith)]
    norm_num
  · intro h
    rw [toScaledScore, min_eq_left (by linarith),
      max_eq_right (by norm_num : (0 : ℚ) ≤ 10)]
    norm_num
  · intro h0 h10
    rw [toScaledScore, min_eq_right h10, max_eq_right h0]

/-! ## C10 — withdraw performs no stake accounting -/

/-- `exReady` after the owner withdrew the full 100 wei balance. -/
def exDrained : State := { exReady with balance := exReady.balance - 100 }

/-- C10: `withdraw` is constrained only by a non-zero recipient and the
current balance; it keeps no accounting of stakes of unsettled
predictions.  Concretely, on the reachable state `exReady` (entry 1
committed and unsettled with stake 100, oracle score set, balance 100) the
owner's withdrawal of the full balance succeeds, and the subsequent
settlement — whose computed payout 50 is positive — fails on the balance
check with `"insufficient balance"` instead of paying out. -/
theorem withdraw_starves_settlement :
    (exReady.predictions 1).predictor ≠ 0 ∧
    (exReady.predictions 1).settled = false ∧
    (exReady.predictions 1).amountStaked = 100 ∧
    exReady.balance = 100 ∧
    withdraw 9 3 100 exReady = .ok exDrained ∧
    exDrained.balance = 0 ∧
    0 < payoutAmount (exDrained.predictions 1).amountStaked
      (absDiff (exDrained.predictions 1).revealedScore (exDrained.aiScores 1)) ∧
    settlePrediction 1 11 exDrained = .error .insufficientBalance :=
  ⟨by decide, by decide, by decide, by decide, rfl, by decide, by decide, rfl⟩

end PredictionGameScroll
